import Mathlib

/-!
Verification of the iTIP scheduling engine of this repository
(`crates/groupware/src/scheduling/event_update.rs` and
`crates/groupware/src/scheduling/event_cancel.rs`) against its
natural-language specification.

The two Rust source files are shallowly embedded below.  Supporting code
that the source files call but that is not part of the provided sources
(the snapshot builder `itip_snapshot`, the helpers in `itip.rs`,
`attendee.rs`, `organizer.rs`) is modelled from the specification; every
such definition carries a doc comment starting with `Modelled from the
spec:`.  Machine integers: the snapshot's SEQUENCE is specified as a plain
integer ("SEQUENCE (integer, default 0)"), so it is embedded as `Int`.
Hash sets (`AHashSet`) are embedded as duplicate-free lists built by
membership-checked insertion, which preserves exactly the set semantics
the code relies on.
-/

/-- Component types of an iCalendar component
(`calcard::icalendar::ICalendarComponentType`, restricted to the variants
the scheduling code distinguishes; all others are collapsed into `other`). -/
inductive ICalendarComponentType where
  | vCalendar
  | vEvent
  | vTodo
  | vJournal
  | vFreebusy
  | vTimezone
  | other
deriving DecidableEq, Repr

/-- iTIP METHOD values (`calcard::icalendar::ICalendarMethod`). -/
inductive ICalendarMethod where
  | request
  | reply
  | cancel
  | add
  | refresh
  | counter
  | declineCounter
deriving DecidableEq, Repr

/-- STATUS values (`calcard::icalendar::ICalendarStatus`, restricted). -/
inductive ICalendarStatus where
  | cancelled
  | confirmed
  | tentative
deriving DecidableEq, Repr

/-- PARTSTAT values (`calcard::icalendar::ICalendarParticipationStatus`). -/
inductive ICalendarParticipationStatus where
  | needsAction
  | accepted
  | declined
  | tentative
  | delegated
deriving DecidableEq, Repr

/-- Property codes (`calcard::icalendar::ICalendarProperty`, restricted to
the properties the scheduling code writes). -/
inductive ICalendarProperty where
  | method
  | status
  | dtstamp
  | sequence
  | uid
  | organizer
  | attendee
  | recurrenceId
  | other
deriving DecidableEq, Repr

/-- Property values (`calcard::icalendar::ICalendarValue`, restricted).
`PartialDateTime` timestamps are embedded as `Nat`. -/
inductive ICalendarValue where
  | text (s : String)
  | integer (i : Int)
  | status (s : ICalendarStatus)
  | method (m : ICalendarMethod)
  | partStat (p : ICalendarParticipationStatus)
  | dateTime (t : Nat)
deriving DecidableEq, Repr

/-- One property line of a component.  The source's entry type also carries
a parameter list; the verified code paths never read it, so it is omitted. -/
structure ICalendarEntry where
  name : ICalendarProperty
  value : ICalendarValue
deriving DecidableEq, Repr

/-- A component: type, property entries, and indices of child components
(the flat-list-plus-indices object graph described in the spec). -/
structure ICalendarComponent where
  component_type : ICalendarComponentType
  entries : List ICalendarEntry
  component_ids : List Nat
deriving DecidableEq, Repr

/-- A parsed iCalendar object: a flat list of components. -/
structure ICalendar where
  components : List ICalendarComponent
deriving DecidableEq, Repr

/-- `ICalendarComponent::add_property`: appends a property entry. -/
def ICalendarComponent.add_property (c : ICalendarComponent)
    (p : ICalendarProperty) (v : ICalendarValue) : ICalendarComponent :=
  { c with entries := c.entries ++ [⟨p, v⟩] }

/-- `ICalendarComponent::add_dtstamp`. -/
def ICalendarComponent.add_dtstamp (c : ICalendarComponent) (dt : Nat) :
    ICalendarComponent :=
  c.add_property .dtstamp (.dateTime dt)

/-- `ICalendarComponent::add_sequence`. -/
def ICalendarComponent.add_sequence (c : ICalendarComponent) (s : Int) :
    ICalendarComponent :=
  c.add_property .sequence (.integer s)

/-- `ICalendarComponent::add_uid`. -/
def ICalendarComponent.add_uid (c : ICalendarComponent) (uid : String) :
    ICalendarComponent :=
  c.add_property .uid (.text uid)

/-- A normalized e-mail address together with the flag telling whether it
belongs to the local account (spec §3 "EmailAddress"; `scheduling::Email`). -/
structure Email where
  email : String
  is_local : Bool
deriving DecidableEq, Repr

/-- Modelled from the spec: the display form of an address as written into
ORGANIZER/ATTENDEE property values (the `Display` impl of `Email` is not in
the provided sources); the spec's input model strips and re-adds the
`mailto:` URI prefix. -/
def Email.display (e : Email) : String :=
  "mailto:" ++ e.email

/-- An attendee as recorded in a snapshot (spec §3 "Participant",
restricted to the fields the verified code paths read: address, RSVP flag,
scheduling-agent flag, participation status). -/
structure Participant where
  email : Email
  rsvp : Bool
  scheduleAgentClient : Bool
  part_stat : ICalendarParticipationStatus
deriving DecidableEq, Repr

/-- Modelled from the spec: send-update eligibility
(`Participant::send_update_messages`, not in the provided sources): true
unless the attendee is flagged `SCHEDULE-AGENT:CLIENT` or `RSVP:FALSE`
(spec §3 invariant, §4.3 per-recipient suppression). -/
def Participant.send_update_messages (a : Participant) : Bool :=
  a.rsvp && !a.scheduleAgentClient

/-- Identifies a component within a calendar object (spec §3): the main
component or a recurrence override keyed by its RECURRENCE-ID timestamp. -/
inductive InstanceId where
  | main
  | recurrence (ts : Int)
deriving DecidableEq, Repr

/-- Per-instance snapshot data (spec §3 "Snapshot"; `ItipComponent` of the
snapshot module, which is not in the provided sources).  Of the borrowed
source component only its type is kept — the only field the verified code
reads via `comp.comp.component_type`.  The significant-field fingerprint is
embedded as a `Nat`. -/
structure ItipComponent where
  component_type : ICalendarComponentType
  attendees : List Participant
  sequence : Option Int
  fingerprint : Nat
deriving DecidableEq, Repr

/-- The organizer of a snapshot (the verified code reads only its email). -/
structure Organizer where
  email : Email
deriving DecidableEq, Repr

/-- A snapshot of a calendar object (spec §3 "Snapshot"; `ItipSnapshots` of
the snapshot module).  The instance map is embedded as an association list
in iteration order. -/
structure ItipSnapshots where
  uid : String
  organizer : Organizer
  components : List (InstanceId × ItipComponent)
deriving DecidableEq, Repr

/-- The error taxonomy (spec §7; `scheduling::ItipError`, restricted to the
kinds the verified code produces or matches on, plus the remaining spec
kinds so that the catch-all arm of `itip_update` is meaningful). -/
inductive ItipError where
  | noSchedulingInfo
  | notOrganizer
  | notOrganizerNorAttendee
  | organizerMismatch
  | uidMismatch
  | otherSchedulingAgent
  | cannotModifyAddress
  | cannotModifyProperty
  | unsupportedMethod
  | nothingToSend
  | sequenceOutOfDate
  | malformed
deriving DecidableEq, Repr

/-- Human-facing summary of an emitted message (`scheduling::ItipSummary`,
restricted to the variants the verified code builds; the instance digest is
embedded as a `String`). -/
inductive ItipSummary where
  | cancel (current : String)
  | rsvp (part_stat : ICalendarParticipationStatus) (current : String)
deriving DecidableEq, Repr

/-- An abstract outgoing scheduling message (spec §3 "Message";
`scheduling::ItipMessage<T>`). -/
structure ItipMessage (T : Type) where
  «from» : String
  from_organizer : Bool
  «to» : List String
  summary : ItipSummary
  message : T
deriving DecidableEq, Repr

instance {ε α : Type} [DecidableEq ε] [DecidableEq α] :
    DecidableEq (Except ε α) := fun a b =>
  match a, b with
  | .error e, .error f =>
      if h : e = f then .isTrue (by rw [h]) else
        .isFalse (fun hc => h (Except.error.inj hc))
  | .ok x, .ok y =>
      if h : x = y then .isTrue (by rw [h]) else
        .isFalse (fun hc => h (Except.ok.inj hc))
  | .error _, .ok _ => .isFalse (fun hc => Except.noConfusion hc)
  | .ok _, .error _ => .isFalse (fun hc => Except.noConfusion hc)

/-- Membership-checked insertion: the embedding of `AHashSet::insert`.
Keeps first-insertion order, never duplicates. -/
def insertUnique {α : Type} [DecidableEq α] (s : List α) (a : α) : List α :=
  if a ∈ s then s else s ++ [a]

theorem mem_insertUnique {α : Type} [DecidableEq α] (s : List α) (a b : α) :
    b ∈ insertUnique s a ↔ b ∈ s ∨ b = a := by
  unfold insertUnique
  split
  · constructor
    · exact fun h => Or.inl h
    · rintro (h | rfl)
      · exact h
      · assumption
  · simp [List.mem_append]

theorem nodup_insertUnique {α : Type} [DecidableEq α] (s : List α) (a : α)
    (h : s.Nodup) : (insertUnique s a).Nodup := by
  unfold insertUnique
  split
  · exact h
  · simpa [List.nodup_append] using ⟨h, by assumption⟩

/-- Modelled from the spec: `itip_build_envelope` (in `itip.rs`, which is
not among the provided sources) produces the envelope component carrying
the METHOD and the child-component references (§4.6 Message Builder). -/
def itip_build_envelope (m : ICalendarMethod) : ICalendarComponent :=
  { component_type := .vCalendar
    entries := [⟨.method, .method m⟩]
    component_ids := [] }

/-- Modelled from the spec: `itip_add_tz` (in `itip.rs`, not provided)
attaches, for each TZID referenced by a date property of a child component,
the corresponding VTIMEZONE (§4.6).  This embedding carries no TZID
references, so the attachment set is always empty and the message is
returned unchanged.  (The source also receives the original object to copy
VTIMEZONE components from; with an empty attachment set it is unused.) -/
def itip_add_tz (message : ICalendar) : ICalendar :=
  message

/-- Modelled from the spec: the summary digest built by
`itip.main_instance_or_default().build_summary(None, &[])` (snapshot
module, not provided).  The Summary is a human-facing digest that is not
part of the wire object (§3); it is embedded here by the object's UID. -/
def ItipSnapshots.build_summary (itip : ItipSnapshots) : String :=
  itip.uid

/-- Modelled from the spec: `attendee_decline` (in `attendee.rs`, not
provided).  For an instance that has a local attendee it produces a REPLY
component declining attendance — PARTSTAT=DECLINED for that attendee, with
the object's UID, organizer, DTSTAMP and, for an override, its
RECURRENCE-ID (§4.4: object deletion emits REPLY with PARTSTAT=DECLINED
for all formerly-attended instances; the from address is the local
attendee).  The reply recipient is the organizer only (§4.4), so no extra
recipients are accumulated. -/
def attendee_decline (instance_id : InstanceId) (itip : ItipSnapshots)
    (comp : ItipComponent) (dt_stamp : Nat) :
    Option (ICalendarComponent × Email) :=
  (comp.attendees.find? (fun a => a.email.is_local)).map (fun a =>
    let c : ICalendarComponent :=
      { component_type := comp.component_type, entries := [], component_ids := [] }
    let c := c.add_uid itip.uid
    let c := c.add_dtstamp dt_stamp
    let c := c.add_property .organizer (.text itip.organizer.email.display)
    let c := c.add_property .attendee (.text a.email.display)
    let c := c.add_property .other (.partStat .declined)
    let c := match instance_id with
      | .main => c
      | .recurrence ts => c.add_property .recurrenceId (.integer ts)
    (c, a.email))

/-- `build_cancel_component` (event_cancel.rs): the synthetic component of
an organizer CANCEL — STATUS:CANCELLED, DTSTAMP, SEQUENCE, UID, ORGANIZER
and one ATTENDEE line per cancelled guest.  The Rust function consumes any
iterator of displayable guests; it is embedded at the list of guest
addresses it is applied to. -/
def build_cancel_component (component_type : ICalendarComponentType)
    (itip : ItipSnapshots) (sequence : Int) (dt_stamp : Nat)
    (cancel_guests : List Email) : ICalendarComponent :=
  let cancel_comp : ICalendarComponent :=
    { component_type := component_type, entries := [], component_ids := [] }
  let cancel_comp := cancel_comp.add_property .status (.status .cancelled)
  let cancel_comp := cancel_comp.add_dtstamp dt_stamp
  let cancel_comp := cancel_comp.add_sequence sequence
  let cancel_comp := cancel_comp.add_uid itip.uid
  let cancel_comp :=
    cancel_comp.add_property .organizer (.text itip.organizer.email.display)
  cancel_guests.foldl
    (fun c email => c.add_property .attendee (.text email.display)) cancel_comp

/-- The loop state of the organizer branch of `itip_cancel`: the recipient
set, the cancelled-guest set, the component type seen last, and the bumped
sequence number. -/
structure CancelAcc where
  recipients : List String
  cancel_guests : List Email
  component_type : ICalendarComponentType
  sequence : Int
deriving DecidableEq, Repr

/-- The effect of one attendee on the recipient set (event_cancel.rs lines
48–50): only update-eligible attendees enter it. -/
def recipientStep (r : List String) (a : Participant) : List String :=
  if a.send_update_messages then insertUnique r a.email.email else r

/-- The effect of one attendee on the cancelled-guest set (event_cancel.rs
line 51): every attendee enters it. -/
def guestStep (g : List Email) (a : Participant) : List Email :=
  insertUnique g a.email

/-- The body of the inner `for attendee in &comp.attendees` loop of
`itip_cancel` (event_cancel.rs lines 47–52). -/
def cancelAttendeeStep (a : CancelAcc) (att : Participant) : CancelAcc :=
  { a with
    recipients := recipientStep a.recipients att
    cancel_guests := guestStep a.cancel_guests att }

/-- One iteration of the `for (instance_id, comp) in &itip.components`
loop of `itip_cancel` (event_cancel.rs lines 45–58). -/
def cancelStep (acc : CancelAcc) (p : InstanceId × ItipComponent) : CancelAcc :=
  let acc := { acc with component_type := p.2.component_type }
  let acc := p.2.attendees.foldl cancelAttendeeStep acc
  if p.1 = InstanceId.main then
    { acc with sequence := p.2.sequence.getD 0 + 1 }
  else acc

/-- One iteration of the decline loop of `itip_cancel` (event_cancel.rs
lines 90–100): on a successful `attendee_decline` the reply component is
appended and the mail-from address is (re)set. -/
def declineStep (itip : ItipSnapshots) (dt_stamp : Nat)
    (st : List ICalendarComponent × Option Email)
    (p : InstanceId × ItipComponent) :
    List ICalendarComponent × Option Email :=
  match attendee_decline p.1 itip p.2 dt_stamp with
  | some (cancel_comp, attendee_email) => (st.1 ++ [cancel_comp], some attendee_email)
  | none => st

/-- The organizer ("Send cancel message") branch of `itip_cancel`
(event_cancel.rs lines 34–80). -/
def itip_cancel_organizer (itip : ItipSnapshots) (dt_stamp : Nat) :
    Except ItipError (ItipMessage ICalendar) :=
  let comp := itip_build_envelope .cancel
  let comp := { comp with component_ids := comp.component_ids ++ [1] }
  let acc := itip.components.foldl cancelStep ⟨[], [], .vEvent, 0⟩
  if acc.recipients ≠ [] ∧ acc.component_type ≠ .vFreebusy then
    .ok { «from» := itip.organizer.email.email
          from_organizer := true
          «to» := acc.recipients
          summary := .cancel itip.build_summary
          message :=
            { components :=
                [comp,
                 build_cancel_component acc.component_type itip acc.sequence
                   dt_stamp acc.cancel_guests] } }
  else
    .error .nothingToSend

/-- The attendee ("Send decline message") branch of `itip_cancel`
(event_cancel.rs lines 81–121). -/
def itip_cancel_attendee (itip : ItipSnapshots) (dt_stamp : Nat) :
    Except ItipError (ItipMessage ICalendar) :=
  let envelope := itip_build_envelope .reply
  let st := itip.components.foldl (declineStep itip dt_stamp) ([], none)
  match st.2 with
  | some fromEmail =>
      let message : ICalendar :=
        { components :=
            { envelope with
              component_ids := (List.range st.1.length).map (· + 1) } :: st.1 }
      let message := itip_add_tz message
      let email_rcpt := insertUnique ([] : List String) itip.organizer.email.email
      .ok { «from» := fromEmail.email
            from_organizer := false
            «to» := email_rcpt
            summary := .rsvp .declined itip.build_summary
            message := message }
  | none => .error .nothingToSend

/-- `itip_cancel` (event_cancel.rs), embedded from the point where the
snapshot of the object has been built (`itip_snapshot`, whose source is
not provided, already succeeded; the claims quantify over its result).
`PartialDateTime::now()` is an explicit `dt_stamp` input; the two
branches of `if itip.organizer.email.is_local` are the two named
functions above. -/
def itip_cancel (itip : ItipSnapshots) (dt_stamp : Nat) :
    Except ItipError (ItipMessage ICalendar) :=
  if itip.organizer.email.is_local then
    itip_cancel_organizer itip dt_stamp
  else
    itip_cancel_attendee itip dt_stamp

/-- The instance stored in a snapshot under key `k` (the map lookup of the
snapshot module, embedded on the association list). -/
def ItipSnapshots.lookupInstance (s : ItipSnapshots) (k : InstanceId) :
    Option ItipComponent :=
  (s.components.find? (fun p => decide (p.1 = k))).map (·.2)

/-- The instance keys of a snapshot are pairwise distinct (true of the
snapshot module's hash map by construction). -/
def ItipSnapshots.keysNodup (s : ItipSnapshots) : Prop :=
  (s.components.map Prod.fst).Nodup

instance (s : ItipSnapshots) : Decidable s.keysNodup := by
  unfold ItipSnapshots.keysNodup
  infer_instance

/-- Attendee sets compared by address (spec §4.2 tie-break: attendee
equality is by address; parameter changes are non-significant). -/
def sameAttendeeSet (o n : ItipComponent) : Bool :=
  o.attendees.all (fun a => n.attendees.any (fun b => b.email.email = a.email.email)) &&
  n.attendees.all (fun b => o.attendees.any (fun a => a.email.email = b.email.email))

/-- Modelled from the spec: the per-instance significance test of the diff
classifier (§4.2) — an instance is unchanged when its significant-field
fingerprint and its attendee set (by address) are unchanged. -/
def instanceUnchanged (o n : ItipComponent) : Bool :=
  (o.fingerprint = n.fingerprint) && sameAttendeeSet o n

/-- Modelled from the spec: the instances the diff classifier (§4.2) marks
significant — added, removed, or with a fingerprint or attendee-set
change. -/
def changedInstances (old_itip new_itip : ItipSnapshots) : List InstanceId :=
  old_itip.components.filterMap (fun p =>
    match new_itip.lookupInstance p.1 with
    | some c => if instanceUnchanged p.2 c then none else some p.1
    | none => some p.1)
  ++ new_itip.components.filterMap (fun p =>
    if (old_itip.lookupInstance p.1).isSome then none else some p.1)

/-- Modelled from the spec: `organizer_handle_update` (in `organizer.rs`,
not among the provided sources).  §4.2/§4.3: removed instances yield one
CANCEL to their update-eligible attendees; the remaining significant
instances yield one REQUEST, whose body is the new object, to the union of
their current update-eligible attendees, with each touched instance's
SEQUENCE incremented by one; CANCEL precedes REQUEST (§5); when the diff
finds no significant instance, or no recipient remains, the result is
`NothingToSend`. -/
def organizer_handle_update (_old_ical ical : ICalendar)
    (old_itip new_itip : ItipSnapshots) :
    Except ItipError (List (ItipMessage ICalendar)) × List (InstanceId × Int) :=
  let changed := changedInstances old_itip new_itip
  if changed.isEmpty then (.error .nothingToSend, [])
  else
    let removed := changed.filter (fun k => (new_itip.lookupInstance k).isNone)
    let kept := changed.filter (fun k => (new_itip.lookupInstance k).isSome)
    let sequences := kept.filterMap (fun k =>
      (new_itip.lookupInstance k).map (fun c => (k, c.sequence.getD 0 + 1)))
    let cancelRcpt := removed.foldl (fun r k =>
      match old_itip.lookupInstance k with
      | some c => c.attendees.foldl (fun r a =>
          if a.send_update_messages then insertUnique r a.email.email else r) r
      | none => r) []
    let cancelGuests := removed.foldl (fun g k =>
      match old_itip.lookupInstance k with
      | some c => c.attendees.foldl (fun g a => insertUnique g a.email) g
      | none => g) []
    let requestRcpt := kept.foldl (fun r k =>
      match new_itip.lookupInstance k with
      | some c => c.attendees.foldl (fun r a =>
          if a.send_update_messages then insertUnique r a.email.email else r) r
      | none => r) []
    let cancelSeq :=
      ((old_itip.lookupInstance .main).bind (·.sequence)).getD 0 + 1
    let cancels : List (ItipMessage ICalendar) :=
      if cancelRcpt.isEmpty then []
      else
        [{ «from» := old_itip.organizer.email.email
           from_organizer := true
           «to» := cancelRcpt
           summary := .cancel old_itip.build_summary
           message :=
             { components :=
                 [{ itip_build_envelope .cancel with component_ids := [1] },
                  build_cancel_component .vEvent old_itip cancelSeq 0 cancelGuests] } }]
    let requests : List (ItipMessage ICalendar) :=
      if requestRcpt.isEmpty then []
      else
        [{ «from» := new_itip.organizer.email.email
           from_organizer := true
           «to» := requestRcpt
           summary := .cancel new_itip.build_summary
           message :=
             { components := itip_build_envelope .request :: ical.components } }]
    let messages := cancels ++ requests
    if messages.isEmpty then (.error .nothingToSend, sequences)
    else (.ok messages, sequences)

/-- Modelled from the spec: the PARTSTAT changes performed by local
attendees — for each instance present in both snapshots, a local attendee
of the new snapshot whose old participation status differs; one entry per
distinct changed address (§4.4). -/
def changedLocalPartstats (old_itip new_itip : ItipSnapshots) :
    List (String × ICalendarParticipationStatus) :=
  new_itip.components.foldl (fun acc p =>
    p.2.attendees.foldl (fun acc a =>
      if a.email.is_local then
        match old_itip.lookupInstance p.1 with
        | some oc =>
            match oc.attendees.find? (fun b => decide (b.email.email = a.email.email)) with
            | some b =>
                if b.part_stat = a.part_stat then acc
                else insertUnique acc (a.email.email, a.part_stat)
            | none => acc
        | none => acc
      else acc) acc) []

/-- Modelled from the spec: `attendee_handle_update` (in `attendee.rs`, not
among the provided sources).  §4.4: an attendee may not add or remove
attendees nor add or drop instances (`CannotModifyAddress`); a
significant-field change yields a COUNTER to the organizer from a local
attendee; PARTSTAT changes yield one REPLY per distinct changed local
address, addressed to the organizer only; with no change the result is
`NothingToSend`.  REPLY precedes COUNTER (§5). -/
def attendee_handle_update (ical : ICalendar)
    (old_itip new_itip : ItipSnapshots) :
    Except ItipError (List (ItipMessage ICalendar)) :=
  let attendeesUnchanged :=
    old_itip.components.all (fun p =>
      match new_itip.lookupInstance p.1 with
      | some c => sameAttendeeSet p.2 c
      | none => false) &&
    new_itip.components.all (fun p => (old_itip.lookupInstance p.1).isSome)
  if !attendeesUnchanged then .error .cannotModifyAddress
  else
    let replies := (changedLocalPartstats old_itip new_itip).map (fun pr =>
      { «from» := pr.1
        from_organizer := false
        «to» := [new_itip.organizer.email.email]
        summary := .rsvp pr.2 new_itip.build_summary
        message := { components := [itip_build_envelope .reply] } })
    let significantChanged := new_itip.components.any (fun p =>
      match old_itip.lookupInstance p.1 with
      | some oc => !(oc.fingerprint = p.2.fingerprint)
      | none => true)
    let localAddr := new_itip.components.findSome? (fun p =>
      (p.2.attendees.find? (fun a => a.email.is_local)).map (·.email.email))
    let counters : List (ItipMessage ICalendar) :=
      match significantChanged, localAddr with
      | true, some addr =>
          [{ «from» := addr
             from_organizer := false
             «to» := [new_itip.organizer.email.email]
             summary := .cancel new_itip.build_summary
             message := { components := itip_build_envelope .counter :: ical.components } }]
      | _, _ => []
    let messages := replies ++ counters
    if messages.isEmpty then .error .nothingToSend
    else .ok messages

/-- The instance a component of the mutated object belongs to, recovered
from its RECURRENCE-ID entry. -/
def componentInstanceId (c : ICalendarComponent) : InstanceId :=
  match c.entries.find? (fun e => decide (e.name = .recurrenceId)) with
  | some ⟨_, .integer ts⟩ => .recurrence ts
  | _ => .main

/-- Modelled from the spec: `itip_finalize` (in `itip.rs`, not among the
provided sources).  §4.7: applies the requested SEQUENCE bumps to the new
object in place and, on each bumped instance, resets attendee PARTSTATs to
NEEDS-ACTION; with no requested bumps it is a no-op. -/
def itip_finalize (ical : ICalendar) (sequences : List (InstanceId × Int)) :
    ICalendar :=
  if sequences.isEmpty then ical
  else
    { components := ical.components.map (fun c =>
        match sequences.find? (fun p => decide (p.1 = componentInstanceId c)) with
        | some pr =>
            { c with entries := c.entries.map (fun e =>
                if e.name = .sequence then { e with value := .integer pr.2 }
                else
                  match e.value with
                  | .partStat _ => { e with value := .partStat .needsAction }
                  | _ => e) }
        | none => c) }

/-- `itip_update` (event_update.rs).  The two `itip_snapshot` calls (whose
source is not provided) are abstracted into the `snap_old`/`snap_new`
inputs, over which the claims quantify; the organizer/attendee handlers
and the finalizer, also not provided, are explicit function parameters
(their spec models above instantiate them).  `itip_snapshot` is a pure
function of its arguments, so the `itip_cancel(old_ical, account_emails)`
call in the error branch — which re-snapshots the unchanged old object —
is embedded as the cancel body applied to the already-computed old
snapshot.  The `&mut` borrow of the new object is embedded by state
passing: the result is returned together with the (possibly finalized)
new object. -/
def itip_update
    (organizerHandle : ICalendar → ICalendar → ItipSnapshots → ItipSnapshots →
      Except ItipError (List (ItipMessage ICalendar)) × List (InstanceId × Int))
    (attendeeHandle : ICalendar → ItipSnapshots → ItipSnapshots →
      Except ItipError (List (ItipMessage ICalendar)))
    (finalize : ICalendar → List (InstanceId × Int) → ICalendar)
    (dt_stamp : Nat)
    (old_ical : ICalendar)
    (snap_old snap_new : Except ItipError ItipSnapshots)
    (ical : ICalendar) :
    Except ItipError (List (ItipMessage ICalendar)) × ICalendar :=
  match snap_old with
  | .error err => (.error err, ical)
  | .ok old_itip =>
    match snap_new with
    | .ok new_itip =>
        if old_itip.organizer.email ≠ new_itip.organizer.email then
          (.error .organizerMismatch, ical)
        else if old_itip.organizer.email.is_local then
          match organizerHandle old_ical ical old_itip new_itip with
          | (.ok messages, sequences) => (.ok messages, finalize ical sequences)
          | (.error err, _) => (.error err, ical)
        else
          match attendeeHandle ical old_itip new_itip with
          | .ok messages => (.ok messages, finalize ical [])
          | .error err => (.error err, ical)
    | .error err =>
        match err with
        | .noSchedulingInfo | .notOrganizer | .notOrganizerNorAttendee
        | .otherSchedulingAgent =>
            if old_itip.organizer.email.is_local then
              ((itip_cancel old_itip dt_stamp).map (fun m => [m]), ical)
            else
              (.error .cannotModifyAddress, ical)
        | _ => (.error err, ical)

/-- Specification-side view: the union, over all instances, of the
addresses of the attendees eligible for update messages — the recipient
set the spec assigns to an organizer CANCEL. -/
def eligibleRecipients (itip : ItipSnapshots) : List String :=
  itip.components.foldl (fun r p => p.2.attendees.foldl recipientStep r) []

/-- Specification-side view: the union-of-attendees view of the object
(spec §3) — every attendee of every instance, deduplicated. -/
def unionGuests (itip : ItipSnapshots) : List Email :=
  itip.components.foldl (fun g p => p.2.attendees.foldl guestStep g) []

/-- The snapshot builder resolves `is_local` by membership of the address
in the account-identity set (spec §4.1 rule 2); every address flag of a
snapshot is consistent with one account list. -/
def localConsistent (account_emails : List String) (itip : ItipSnapshots) : Prop :=
  (itip.organizer.email.is_local = true ↔ itip.organizer.email.email ∈ account_emails) ∧
  ∀ p ∈ itip.components, ∀ a ∈ p.2.attendees,
    (a.email.is_local = true ↔ a.email.email ∈ account_emails)

instance (ae : List String) (itip : ItipSnapshots) : Decidable (localConsistent ae itip) := by
  unfold localConsistent
  infer_instance

/-- The snapshot builder skips duplicate attendees keyed by address within
an instance (spec §4.1 rule 3). -/
def ItipSnapshots.attendeesNodup (s : ItipSnapshots) : Prop :=
  ∀ p ∈ s.components, (p.2.attendees.map (fun a => a.email.email)).Nodup

instance (s : ItipSnapshots) : Decidable s.attendeesNodup := by
  unfold ItipSnapshots.attendeesNodup
  infer_instance

theorem foldl_fixed {α β : Type} (f : α → β → α) (l : List β) (acc : α)
    (h : ∀ acc' b, b ∈ l → f acc' b = acc') : l.foldl f acc = acc := by
  induction l generalizing acc with
  | nil => rfl
  | cons b t ih =>
      rw [List.foldl_cons, h acc b (by simp)]
      exact ih acc (fun acc' b' hb' => h acc' b' (by simp [hb']))

theorem attFold_recipients (l : List Participant) (acc : CancelAcc) :
    (l.foldl cancelAttendeeStep acc).recipients =
      l.foldl recipientStep acc.recipients := by
  induction l generalizing acc with
  | nil => rfl
  | cons a t ih => simp [List.foldl_cons, ih, cancelAttendeeStep]

theorem attFold_guests (l : List Participant) (acc : CancelAcc) :
    (l.foldl cancelAttendeeStep acc).cancel_guests =
      l.foldl guestStep acc.cancel_guests := by
  induction l generalizing acc with
  | nil => rfl
  | cons a t ih => simp [List.foldl_cons, ih, cancelAttendeeStep]

theorem attFold_component_type (l : List Participant) (acc : CancelAcc) :
    (l.foldl cancelAttendeeStep acc).component_type = acc.component_type := by
  induction l generalizing acc with
  | nil => rfl
  | cons a t ih => simp [List.foldl_cons, ih, cancelAttendeeStep]

theorem attFold_sequence (l : List Participant) (acc : CancelAcc) :
    (l.foldl cancelAttendeeStep acc).sequence = acc.sequence := by
  induction l generalizing acc with
  | nil => rfl
  | cons a t ih => simp [List.foldl_cons, ih, cancelAttendeeStep]

theorem cancelStep_recipients (acc : CancelAcc) (p : InstanceId × ItipComponent) :
    (cancelStep acc p).recipients = p.2.attendees.foldl recipientStep acc.recipients := by
  unfold cancelStep
  split <;> simp [attFold_recipients]

theorem cancelStep_guests (acc : CancelAcc) (p : InstanceId × ItipComponent) :
    (cancelStep acc p).cancel_guests = p.2.attendees.foldl guestStep acc.cancel_guests := by
  unfold cancelStep
  split <;> simp [attFold_guests]

theorem cancelStep_component_type (acc : CancelAcc) (p : InstanceId × ItipComponent) :
    (cancelStep acc p).component_type = p.2.component_type := by
  unfold cancelStep
  split <;> simp [attFold_component_type]

theorem cancelStep_sequence (acc : CancelAcc) (p : InstanceId × ItipComponent) :
    (cancelStep acc p).sequence =
      if p.1 = InstanceId.main then p.2.sequence.getD 0 + 1 else acc.sequence := by
  unfold cancelStep
  split <;> simp_all [attFold_sequence]

theorem cancelFold_recipients (l : List (InstanceId × ItipComponent)) (acc : CancelAcc) :
    (l.foldl cancelStep acc).recipients =
      l.foldl (fun r p => p.2.attendees.foldl recipientStep r) acc.recipients := by
  induction l generalizing acc with
  | nil => rfl
  | cons p t ih => simp [List.foldl_cons, ih, cancelStep_recipients]

theorem cancelFold_guests (l : List (InstanceId × ItipComponent)) (acc : CancelAcc) :
    (l.foldl cancelStep acc).cancel_guests =
      l.foldl (fun g p => p.2.attendees.foldl guestStep g) acc.cancel_guests := by
  induction l generalizing acc with
  | nil => rfl
  | cons p t ih => simp [List.foldl_cons, ih, cancelStep_guests]

theorem cancelFold_component_type (l : List (InstanceId × ItipComponent)) (acc : CancelAcc) :
    (l.foldl cancelStep acc).component_type =
      (l.map (fun p => p.2.component_type)).getLastD acc.component_type := by
  induction l generalizing acc with
  | nil => rfl
  | cons p t ih =>
      rw [List.foldl_cons, ih, List.map_cons, List.getLastD_cons,
        cancelStep_component_type]

theorem cancelFold_sequence_absent (l : List (InstanceId × ItipComponent)) (acc : CancelAcc)
    (h : ∀ p ∈ l, p.1 ≠ InstanceId.main) :
    (l.foldl cancelStep acc).sequence = acc.sequence := by
  induction l generalizing acc with
  | nil => rfl
  | cons p t ih =>
      rw [List.foldl_cons, ih _ (fun q hq => h q (by simp [hq])),
        cancelStep_sequence, if_neg (h p (by simp))]

theorem cancelFold_sequence (l : List (InstanceId × ItipComponent)) (acc : CancelAcc)
    (c : ItipComponent) (hnd : (l.map Prod.fst).Nodup)
    (hmem : (InstanceId.main, c) ∈ l) :
    (l.foldl cancelStep acc).sequence = c.sequence.getD 0 + 1 := by
  induction l generalizing acc with
  | nil => exact absurd hmem (by simp)
  | cons p t ih =>
      rcases List.mem_cons.mp hmem with heq | hmem'
      · subst heq
        rw [List.foldl_cons]
        have hnone : ∀ q ∈ t, q.1 ≠ InstanceId.main := by
          intro q hq hq1
          have := (List.nodup_cons.mp hnd).1
          exact this (by simpa [hq1] using List.mem_map_of_mem Prod.fst hq)
        rw [cancelFold_sequence_absent t _ hnone, cancelStep_sequence, if_pos rfl]
      · rw [List.foldl_cons]
        exact ih _ (List.nodup_cons.mp hnd).2 hmem'

theorem mem_recipientFold (l : List Participant) (r : List String) (e : String) :
    e ∈ l.foldl recipientStep r ↔
      e ∈ r ∨ ∃ a ∈ l, a.send_update_messages = true ∧ a.email.email = e := by
  induction l generalizing r with
  | nil => simp
  | cons a t ih =>
      rw [List.foldl_cons, ih]
      by_cases h : a.send_update_messages = true
      · rw [show recipientStep r a = insertUnique r a.email.email from by
          simp [recipientStep, h], mem_insertUnique]
        constructor
        · rintro ((hr | he) | ⟨b, hb, hs, hbe⟩)
          · exact Or.inl hr
          · exact Or.inr ⟨a, by simp, h, he.symm⟩
          · exact Or.inr ⟨b, by simp [hb], hs, hbe⟩
        · rintro (hr | ⟨b, hb, hs, hbe⟩)
          · exact Or.inl (Or.inl hr)
          · rcases List.mem_cons.mp hb with rfl | hb'
            · exact Or.inl (Or.inr hbe.symm)
            · exact Or.inr ⟨b, hb', hs, hbe⟩
      · rw [show recipientStep r a = r from by simp [recipientStep, h]]
        constructor
        · rintro (hr | ⟨b, hb, hs, hbe⟩)
          · exact Or.inl hr
          · exact Or.inr ⟨b, by simp [hb], hs, hbe⟩
        · rintro (hr | ⟨b, hb, hs, hbe⟩)
          · exact Or.inl hr
          · rcases List.mem_cons.mp hb with rfl | hb'
            · exact absurd hs h
            · exact Or.inr ⟨b, hb', hs, hbe⟩

theorem nodup_recipientFold (l : List Participant) (r : List String)
    (h : r.Nodup) : (l.foldl recipientStep r).Nodup := by
  induction l generalizing r with
  | nil => exact h
  | cons a t ih =>
      rw [List.foldl_cons]
      apply ih
      unfold recipientStep
      split
      · exact nodup_insertUnique _ _ h
      · exact h

theorem mem_guestFold (l : List Participant) (g : List Email) (e : Email) :
    e ∈ l.foldl guestStep g ↔ e ∈ g ∨ ∃ a ∈ l, a.email = e := by
  induction l generalizing g with
  | nil => simp
  | cons a t ih =>
      rw [List.foldl_cons, ih,
        show guestStep g a = insertUnique g a.email from rfl, mem_insertUnique]
      constructor
      · rintro ((hg | he) | ⟨b, hb, hbe⟩)
        · exact Or.inl hg
        · exact Or.inr ⟨a, by simp, he.symm⟩
        · exact Or.inr ⟨b, by simp [hb], hbe⟩
      · rintro (hg | ⟨b, hb, hbe⟩)
        · exact Or.inl (Or.inl hg)
        · rcases List.mem_cons.mp hb with rfl | hb'
          · exact Or.inl (Or.inr hbe.symm)
          · exact Or.inr ⟨b, hb', hbe⟩

theorem nodup_guestFold (l : List Participant) (g : List Email)
    (h : g.Nodup) : (l.foldl guestStep g).Nodup := by
  induction l generalizing g with
  | nil => exact h
  | cons a t ih =>
      rw [List.foldl_cons]
      exact ih _ (nodup_insertUnique _ _ h)

theorem mem_recipientOuterFold (L : List (InstanceId × ItipComponent))
    (r : List String) (e : String) :
    e ∈ L.foldl (fun r p => p.2.attendees.foldl recipientStep r) r ↔
      e ∈ r ∨ ∃ p ∈ L, ∃ a ∈ p.2.attendees,
        a.send_update_messages = true ∧ a.email.email = e := by
  induction L generalizing r with
  | nil => simp
  | cons p t ih =>
      rw [List.foldl_cons, ih, mem_recipientFold]
      constructor
      · rintro ((hr | ⟨a, ha, hs, he⟩) | ⟨q, hq, hQ⟩)
        · exact Or.inl hr
        · exact Or.inr ⟨p, by simp, a, ha, hs, he⟩
        · exact Or.inr ⟨q, by simp [hq], hQ⟩
      · rintro (hr | ⟨q, hq, hQ⟩)
        · exact Or.inl (Or.inl hr)
        · rcases List.mem_cons.mp hq with rfl | hq'
          · exact Or.inl (Or.inr hQ)
          · exact Or.inr ⟨q, hq', hQ⟩

theorem nodup_recipientOuterFold (L : List (InstanceId × ItipComponent))
    (r : List String) (h : r.Nodup) :
    (L.foldl (fun r p => p.2.attendees.foldl recipientStep r) r).Nodup := by
  induction L generalizing r with
  | nil => exact h
  | cons p t ih =>
      rw [List.foldl_cons]
      exact ih _ (nodup_recipientFold _ _ h)

theorem mem_guestOuterFold (L : List (InstanceId × ItipComponent))
    (g : List Email) (e : Email) :
    e ∈ L.foldl (fun g p => p.2.attendees.foldl guestStep g) g ↔
      e ∈ g ∨ ∃ p ∈ L, ∃ a ∈ p.2.attendees, a.email = e := by
  induction L generalizing g with
  | nil => simp
  | cons p t ih =>
      rw [List.foldl_cons, ih, mem_guestFold]
      constructor
      · rintro ((hg | ⟨a, ha, he⟩) | ⟨q, hq, hQ⟩)
        · exact Or.inl hg
        · exact Or.inr ⟨p, by simp, a, ha, he⟩
        · exact Or.inr ⟨q, by simp [hq], hQ⟩
      · rintro (hg | ⟨q, hq, hQ⟩)
        · exact Or.inl (Or.inl hg)
        · rcases List.mem_cons.mp hq with rfl | hq'
          · exact Or.inl (Or.inr hQ)
          · exact Or.inr ⟨q, hq', hQ⟩

theorem nodup_guestOuterFold (L : List (InstanceId × ItipComponent))
    (g : List Email) (h : g.Nodup) :
    (L.foldl (fun g p => p.2.attendees.foldl guestStep g) g).Nodup := by
  induction L generalizing g with
  | nil => exact h
  | cons p t ih =>
      rw [List.foldl_cons]
      exact ih _ (nodup_guestFold _ _ h)

theorem mem_eligibleRecipients (itip : ItipSnapshots) (e : String) :
    e ∈ eligibleRecipients itip ↔
      ∃ p ∈ itip.components, ∃ a ∈ p.2.attendees,
        a.send_update_messages = true ∧ a.email.email = e := by
  unfold eligibleRecipients
  rw [mem_recipientOuterFold]
  simp

theorem nodup_eligibleRecipients (itip : ItipSnapshots) :
    (eligibleRecipients itip).Nodup :=
  nodup_recipientOuterFold _ _ List.nodup_nil

theorem mem_unionGuests (itip : ItipSnapshots) (e : Email) :
    e ∈ unionGuests itip ↔
      ∃ p ∈ itip.components, ∃ a ∈ p.2.attendees, a.email = e := by
  unfold unionGuests
  rw [mem_guestOuterFold]
  simp

theorem nodup_unionGuests (itip : ItipSnapshots) :
    (unionGuests itip).Nodup :=
  nodup_guestOuterFold _ _ List.nodup_nil

theorem insertUnique_nil {α : Type} [DecidableEq α] (a : α) :
    insertUnique ([] : List α) a = [a] := rfl

theorem attendee_decline_some (k : InstanceId) (itip : ItipSnapshots)
    (comp : ItipComponent) (dt : Nat) (c : ICalendarComponent) (e : Email)
    (h : attendee_decline k itip comp dt = some (c, e)) :
    ∃ a ∈ comp.attendees, a.email.is_local = true ∧ e = a.email := by
  unfold attendee_decline at h
  rcases Option.map_eq_some'.mp h with ⟨a, hfind, hfe⟩
  refine ⟨a, List.mem_of_find?_eq_some hfind, ?_, ?_⟩
  · simpa using List.find?_some hfind
  · exact (congrArg Prod.snd hfe).symm

theorem attendee_decline_eq_none (k : InstanceId) (itip : ItipSnapshots)
    (comp : ItipComponent) (dt : Nat)
    (h : ∀ a ∈ comp.attendees, a.email.is_local = false) :
    attendee_decline k itip comp dt = none := by
  unfold attendee_decline
  rw [List.find?_eq_none.mpr (fun a ha => by simp [h a ha])]
  rfl

theorem attendee_decline_isSome (k : InstanceId) (itip : ItipSnapshots)
    (comp : ItipComponent) (dt : Nat)
    (h : ∃ a ∈ comp.attendees, a.email.is_local = true) :
    (attendee_decline k itip comp dt).isSome := by
  unfold attendee_decline
  rcases h with ⟨a, ha, hl⟩
  rw [Option.isSome_map']
  rw [List.find?_isSome]
  exact ⟨a, ha, by simp [hl]⟩

theorem declineFold_some (itip : ItipSnapshots) (dt : Nat)
    (l : List (InstanceId × ItipComponent))
    (st : List ICalendarComponent × Option Email) (e : Email)
    (h : (l.foldl (declineStep itip dt) st).2 = some e) :
    st.2 = some e ∨ ∃ p ∈ l, ∃ c, attendee_decline p.1 itip p.2 dt = some (c, e) := by
  induction l generalizing st with
  | nil => exact Or.inl h
  | cons p t ih =>
      rw [List.foldl_cons] at h
      rcases ih _ h with hst | ⟨q, hq, c, hc⟩
      · unfold declineStep at hst
        rcases hd : attendee_decline p.1 itip p.2 dt with _ | ⟨c, e'⟩
        · rw [hd] at hst
          exact Or.inl hst
        · rw [hd] at hst
          have he : e' = e := by simpa using hst
          exact Or.inr ⟨p, by simp, c, by rw [hd, he]⟩
      · exact Or.inr ⟨q, by simp [hq], c, hc⟩

theorem declineFold_isSome (itip : ItipSnapshots) (dt : Nat)
    (l : List (InstanceId × ItipComponent))
    (st : List ICalendarComponent × Option Email)
    (h : st.2.isSome ∨ ∃ p ∈ l, ∃ a ∈ p.2.attendees, a.email.is_local = true) :
    ((l.foldl (declineStep itip dt) st).2).isSome := by
  induction l generalizing st with
  | nil =>
      rcases h with h | ⟨p, hp, _⟩
      · exact h
      · simp at hp
  | cons p t ih =>
      rw [List.foldl_cons]
      apply ih
      rcases h with hs | ⟨q, hq, ha⟩
      · left
        unfold declineStep
        rcases hd : attendee_decline p.1 itip p.2 dt with _ | ⟨c, e'⟩
        · exact hs
        · simp
      · rcases List.mem_cons.mp hq with rfl | hq'
        · left
          unfold declineStep
          have := attendee_decline_isSome q.1 itip q.2 dt ha
          rcases hd : attendee_decline q.1 itip q.2 dt with _ | ⟨c, e'⟩
          · rw [hd] at this
            simp at this
          · simp
        · exact Or.inr ⟨q, hq', ha⟩

theorem declineFold_none (itip : ItipSnapshots) (dt : Nat)
    (l : List (InstanceId × ItipComponent))
    (h : ∀ p ∈ l, ∀ a ∈ p.2.attendees, a.email.is_local = false) :
    l.foldl (declineStep itip dt) ([], none) = ([], none) := by
  apply foldl_fixed
  intro st p hp
  unfold declineStep
  rw [attendee_decline_eq_none p.1 itip p.2 dt (h p hp)]

theorem foldl_add_attendee_entries (guests : List Email)
    (c : ICalendarComponent) :
    (guests.foldl (fun c email => c.add_property .attendee (.text email.display)) c).entries =
      c.entries ++ guests.map (fun g => ⟨.attendee, .text g.display⟩) := by
  induction guests generalizing c with
  | nil => simp
  | cons g t ih =>
      rw [List.foldl_cons, ih]
      simp [ICalendarComponent.add_property]

theorem build_cancel_component_entries (ct : ICalendarComponentType)
    (itip : ItipSnapshots) (seq : Int) (dt : Nat) (guests : List Email) :
    (build_cancel_component ct itip seq dt guests).entries =
      [⟨.status, .status .cancelled⟩, ⟨.dtstamp, .dateTime dt⟩,
       ⟨.sequence, .integer seq⟩, ⟨.uid, .text itip.uid⟩,
       ⟨.organizer, .text itip.organizer.email.display⟩] ++
      guests.map (fun g => ⟨.attendee, .text g.display⟩) := by
  unfold build_cancel_component
  rw [foldl_add_attendee_entries]
  rfl

theorem itip_cancel_eq_organizer (itip : ItipSnapshots) (dt : Nat)
    (hloc : itip.organizer.email.is_local = true) :
    itip_cancel itip dt = itip_cancel_organizer itip dt := by
  simp [itip_cancel, hloc]

theorem itip_cancel_eq_attendee (itip : ItipSnapshots) (dt : Nat)
    (hrem : itip.organizer.email.is_local = false) :
    itip_cancel itip dt = itip_cancel_attendee itip dt := by
  simp [itip_cancel, hrem]

theorem itip_cancel_organizer_ok (itip : ItipSnapshots) (dt : Nat)
    (msg : ItipMessage ICalendar)
    (hok : itip_cancel_organizer itip dt = .ok msg) :
    (itip.components.foldl cancelStep ⟨[], [], .vEvent, 0⟩).recipients ≠ [] ∧
    (itip.components.foldl cancelStep ⟨[], [], .vEvent, 0⟩).component_type ≠ .vFreebusy ∧
    msg =
      { «from» := itip.organizer.email.email
        from_organizer := true
        «to» := (itip.components.foldl cancelStep ⟨[], [], .vEvent, 0⟩).recipients
        summary := .cancel itip.build_summary
        message :=
          { components :=
              [{ component_type := .vCalendar
                 entries := [⟨.method, .method .cancel⟩]
                 component_ids := [1] },
               build_cancel_component
                 (itip.components.foldl cancelStep ⟨[], [], .vEvent, 0⟩).component_type
                 itip
                 (itip.components.foldl cancelStep ⟨[], [], .vEvent, 0⟩).sequence
                 dt
                 (itip.components.foldl cancelStep ⟨[], [], .vEvent, 0⟩).cancel_guests] } } := by
  simp only [itip_cancel_organizer] at hok
  split at hok
  next hc =>
    exact ⟨hc.1, hc.2, (Except.ok.inj hok).symm⟩
  next hc =>
    exact absurd hok (by simp)

theorem itip_cancel_organizer_error_iff (itip : ItipSnapshots) (dt : Nat) :
    itip_cancel_organizer itip dt = .error .nothingToSend ↔
      (itip.components.foldl cancelStep ⟨[], [], .vEvent, 0⟩).recipients = [] ∨
      (itip.components.foldl cancelStep ⟨[], [], .vEvent, 0⟩).component_type = .vFreebusy := by
  simp only [itip_cancel_organizer]
  split
  next hc => simp [hc.1, hc.2]
  next hc =>
    simp only [true_iff]
    rcases not_and_or.mp hc with h | h
    · exact Or.inl (not_not.mp h)
    · exact Or.inr (not_not.mp h)

theorem itip_cancel_attendee_ok (itip : ItipSnapshots) (dt : Nat)
    (msg : ItipMessage ICalendar)
    (hok : itip_cancel_attendee itip dt = .ok msg) :
    ∃ e, (itip.components.foldl (declineStep itip dt) ([], none)).2 = some e ∧
      msg =
        { «from» := e.email
          from_organizer := false
          «to» := insertUnique ([] : List String) itip.organizer.email.email
          summary := .rsvp .declined itip.build_summary
          message :=
            itip_add_tz
              { components :=
                  { itip_build_envelope .reply with
                    component_ids :=
                      (List.range
                        (itip.components.foldl (declineStep itip dt) ([], none)).1.length).map
                        (· + 1) } ::
                  (itip.components.foldl (declineStep itip dt) ([], none)).1 } } := by
  simp only [itip_cancel_attendee] at hok
  rcases hs : (itip.components.foldl (declineStep itip dt) ([], none)).2 with _ | e
  · rw [hs] at hok
    exact absurd hok (by simp)
  · rw [hs] at hok
    exact ⟨e, rfl, (Except.ok.inj hok).symm⟩

theorem itip_cancel_attendee_error_iff (itip : ItipSnapshots) (dt : Nat) :
    itip_cancel_attendee itip dt = .error .nothingToSend ↔
      (itip.components.foldl (declineStep itip dt) ([], none)).2 = none := by
  simp only [itip_cancel_attendee]
  rcases hs : (itip.components.foldl (declineStep itip dt) ([], none)).2 with _ | e
  · simp
  · simp

theorem find?_key_nodup {l : List (InstanceId × ItipComponent)}
    {k : InstanceId} {c : ItipComponent}
    (hnd : (l.map Prod.fst).Nodup) (hmem : (k, c) ∈ l) :
    l.find? (fun p => decide (p.1 = k)) = some (k, c) := by
  induction l with
  | nil => simp at hmem
  | cons p t ih =>
      rcases List.mem_cons.mp hmem with rfl | hm
      · rw [List.find?_cons_of_pos _ (by simp)]
      · have hne : ¬(p.1 = k) := by
          intro h
          exact (List.nodup_cons.mp hnd).1
            (h ▸ List.mem_map_of_mem Prod.fst hm)
        rw [List.find?_cons_of_neg _ (by simp [hne])]
        exact ih (List.nodup_cons.mp hnd).2 hm

theorem lookupInstance_self (s : ItipSnapshots) (hnd : s.keysNodup)
    (k : InstanceId) (c : ItipComponent) (hmem : (k, c) ∈ s.components) :
    s.lookupInstance k = some c := by
  unfold ItipSnapshots.lookupInstance
  rw [find?_key_nodup hnd hmem]
  rfl

theorem sameAttendeeSet_refl (c : ItipComponent) : sameAttendeeSet c c = true := by
  unfold sameAttendeeSet
  rw [Bool.and_eq_true, List.all_eq_true]
  constructor
  · intro a ha
    rw [List.any_eq_true]
    exact ⟨a, ha, by simp⟩
  · intro a ha
    rw [List.any_eq_true]
    exact ⟨a, ha, by simp⟩

theorem instanceUnchanged_refl (c : ItipComponent) :
    instanceUnchanged c c = true := by
  simp [instanceUnchanged, sameAttendeeSet_refl]

theorem changedInstances_self (s : ItipSnapshots) (hnd : s.keysNodup) :
    changedInstances s s = [] := by
  unfold changedInstances
  rw [List.append_eq_nil]
  constructor
  · rw [List.filterMap_eq_nil_iff]
    intro p hp
    rw [lookupInstance_self s hnd p.1 p.2 hp]
    simp [instanceUnchanged_refl]
  · rw [List.filterMap_eq_nil_iff]
    intro p hp
    rw [lookupInstance_self s hnd p.1 p.2 hp]
    rfl

theorem organizer_handle_update_self (o i : ICalendar) (s : ItipSnapshots)
    (hnd : s.keysNodup) :
    organizer_handle_update o i s s = (.error .nothingToSend, []) := by
  unfold organizer_handle_update
  rw [changedInstances_self s hnd]
  rfl

theorem changedLocalPartstats_self (s : ItipSnapshots) (hnd : s.keysNodup)
    (hatt : s.attendeesNodup) : changedLocalPartstats s s = [] := by
  unfold changedLocalPartstats
  apply foldl_fixed
  intro acc p hp
  apply foldl_fixed
  intro acc' a ha
  by_cases hl : a.email.is_local = true
  · rw [if_pos hl, lookupInstance_self s hnd p.1 p.2 hp]
    rcases hf : p.2.attendees.find? (fun b => decide (b.email.email = a.email.email))
      with _ | b
    · simp [hf]
    · have hbmem := List.mem_of_find?_eq_some hf
      have hbe : b.email.email = a.email.email := by
        simpa using List.find?_some hf
      have hba : b = a := List.inj_on_of_nodup_map (hatt p hp) hbmem ha hbe
      simp [hf, hba]
  · rw [if_neg hl]

theorem attendee_handle_update_self (i : ICalendar) (s : ItipSnapshots)
    (hnd : s.keysNodup) (hatt : s.attendeesNodup) :
    attendee_handle_update i s s = .error .nothingToSend := by
  have h1 : (s.components.all fun p =>
      match s.lookupInstance p.1 with
      | some c => sameAttendeeSet p.2 c
      | none => false) = true := by
    rw [List.all_eq_true]
    intro p hp
    rw [lookupInstance_self s hnd p.1 p.2 hp]
    exact sameAttendeeSet_refl p.2
  have h2 : (s.components.all fun p => (s.lookupInstance p.1).isSome) = true := by
    rw [List.all_eq_true]
    intro p hp
    rw [lookupInstance_self s hnd p.1 p.2 hp]
    rfl
  have hsig : (s.components.any fun p =>
      match s.lookupInstance p.1 with
      | some oc => !(oc.fingerprint = p.2.fingerprint)
      | none => true) = false := by
    rw [List.any_eq_false]
    intro p hp
    rw [lookupInstance_self s hnd p.1 p.2 hp]
    simp
  simp only [attendee_handle_update, h1, h2, hsig,
    changedLocalPartstats_self s hnd hatt]
  rfl

/-!
Concrete sample snapshots used by witnesses and counterexamples.
-/

/-- A locally-organized VEVENT with one update-eligible remote attendee;
stored SEQUENCE of the main instance is 3. -/
def sampleOrganizer : ItipSnapshots :=
  { uid := "u1"
    organizer := ⟨⟨"a@x", true⟩⟩
    components := [(InstanceId.main,
      { component_type := .vEvent
        attendees := [⟨⟨"b@y", false⟩, true, false, .needsAction⟩]
        sequence := some 3
        fingerprint := 10 })] }

/-- A remotely-organized VEVENT with one local attendee. -/
def sampleAttendee : ItipSnapshots :=
  { uid := "u2"
    organizer := ⟨⟨"a@x", false⟩⟩
    components := [(InstanceId.main,
      { component_type := .vEvent
        attendees := [⟨⟨"b@y", true⟩, true, false, .accepted⟩]
        sequence := some 0
        fingerprint := 1 })] }

/-- A locally-organized snapshot whose organizer is `b@y`. -/
def sampleMismatch : ItipSnapshots :=
  { uid := "u1"
    organizer := ⟨⟨"b@y", true⟩⟩
    components := [] }

/-- A locally-organized VEVENT with one update-eligible attendee `b@y` and
one attendee `c@z` flagged RSVP:FALSE (send-update eligibility false). -/
def sampleSuppressed : ItipSnapshots :=
  { uid := "u4"
    organizer := ⟨⟨"a@x", true⟩⟩
    components := [(InstanceId.main,
      { component_type := .vEvent
        attendees := [⟨⟨"b@y", false⟩, true, false, .needsAction⟩,
                      ⟨⟨"c@z", false⟩, false, false, .needsAction⟩]
        sequence := some 0
        fingerprint := 4 })] }

/-- A locally-organized VFREEBUSY object with an eligible attendee. -/
def sampleFreebusy : ItipSnapshots :=
  { uid := "u5"
    organizer := ⟨⟨"a@x", true⟩⟩
    components := [(InstanceId.main,
      { component_type := .vFreebusy
        attendees := [⟨⟨"b@y", false⟩, true, false, .needsAction⟩]
        sequence := some 0
        fingerprint := 5 })] }

/-!
The claims.
-/

/-- C1: for every pair of calendar objects whose snapshots both succeed,
if the organizer email of the old snapshot differs from the organizer
email of the new snapshot, then `itip_update` returns the error
`OrganizerMismatch` and emits no messages (the result is the error, and
the new object is left untouched); this holds for every choice of the
(unprovided) handler and finalizer code. -/
theorem itip_update_organizer_mismatch
    (organizerHandle : ICalendar → ICalendar → ItipSnapshots → ItipSnapshots →
      Except ItipError (List (ItipMessage ICalendar)) × List (InstanceId × Int))
    (attendeeHandle : ICalendar → ItipSnapshots → ItipSnapshots →
      Except ItipError (List (ItipMessage ICalendar)))
    (finalize : ICalendar → List (InstanceId × Int) → ICalendar)
    (dt : Nat) (old_ical ical : ICalendar) (sOld sNew : ItipSnapshots)
    (h : sOld.organizer.email.email ≠ sNew.organizer.email.email) :
    itip_update organizerHandle attendeeHandle finalize dt old_ical
      (.ok sOld) (.ok sNew) ical = (.error .organizerMismatch, ical) := by
  simp only [itip_update]
  rw [if_pos (fun hc => h (congrArg Email.email hc))]

/-- Witness for C1 at a concrete input. -/
theorem itip_update_organizer_mismatch_witness :
    itip_update organizer_handle_update attendee_handle_update itip_finalize 0
      (ICalendar.mk []) (.ok sampleOrganizer) (.ok sampleMismatch)
      (ICalendar.mk []) = (.error .organizerMismatch, ICalendar.mk []) :=
  itip_update_organizer_mismatch organizer_handle_update attendee_handle_update
    itip_finalize 0 (ICalendar.mk []) (ICalendar.mk []) sampleOrganizer
    sampleMismatch (by decide)

/-- C2: updating an object with old and new equal in content returns the
error `NothingToSend` and leaves the new object unmutated — finalization
runs only when the result is `Ok`.  Stated with the spec models of the
unprovided handlers and finalizer; the snapshot is assumed well-formed
(distinct instance keys, per-instance attendee addresses distinct), which
the snapshot builder guarantees. -/
theorem itip_update_identical_nothing_to_send (s : ItipSnapshots)
    (hnd : s.keysNodup) (hatt : s.attendeesNodup)
    (dt : Nat) (old_ical ical : ICalendar) :
    itip_update organizer_handle_update attendee_handle_update itip_finalize
      dt old_ical (.ok s) (.ok s) ical = (.error .nothingToSend, ical) := by
  simp only [itip_update]
  rw [if_neg (by simp)]
  by_cases hl : s.organizer.email.is_local = true
  · rw [if_pos hl, organizer_handle_update_self old_ical ical s hnd]
  · rw [if_neg hl, attendee_handle_update_self ical s hnd hatt]

/-- Witness for C2 at a concrete input. -/
theorem itip_update_identical_nothing_to_send_witness :
    itip_update organizer_handle_update attendee_handle_update itip_finalize
      0 (ICalendar.mk []) (.ok sampleOrganizer) (.ok sampleOrganizer)
      (ICalendar.mk []) = (.error .nothingToSend, ICalendar.mk []) :=
  itip_update_identical_nothing_to_send sampleOrganizer (by decide) (by decide)
    0 (ICalendar.mk []) (ICalendar.mk [])

/-- C10: when the old snapshot succeeds and the new object's snapshot
fails with `NoSchedulingInfo`, `NotOrganizer`, `NotOrganizerNorAttendee`
or `OtherSchedulingAgent`, `itip_update` returns, for a local old
organizer, exactly the result of `itip_cancel` on the old object wrapped
as a one-element list; for a remote old organizer the error
`CannotModifyAddress`; every other snapshot error is propagated
unchanged.  Holds for every choice of the unprovided handler and
finalizer code. -/
theorem itip_update_snapshot_error
    (organizerHandle : ICalendar → ICalendar → ItipSnapshots → ItipSnapshots →
      Except ItipError (List (ItipMessage ICalendar)) × List (InstanceId × Int))
    (attendeeHandle : ICalendar → ItipSnapshots → ItipSnapshots →
      Except ItipError (List (ItipMessage ICalendar)))
    (finalize : ICalendar → List (InstanceId × Int) → ICalendar)
    (dt : Nat) (old_ical ical : ICalendar) (sOld : ItipSnapshots)
    (e : ItipError) :
    ((e = .noSchedulingInfo ∨ e = .notOrganizer ∨
        e = .notOrganizerNorAttendee ∨ e = .otherSchedulingAgent) →
      (sOld.organizer.email.is_local = true →
        itip_update organizerHandle attendeeHandle finalize dt old_ical
          (.ok sOld) (.error e) ical =
          ((itip_cancel sOld dt).map (fun m => [m]), ical)) ∧
      (sOld.organizer.email.is_local = false →
        itip_update organizerHandle attendeeHandle finalize dt old_ical
          (.ok sOld) (.error e) ical = (.error .cannotModifyAddress, ical))) ∧
    (¬(e = .noSchedulingInfo ∨ e = .notOrganizer ∨
        e = .notOrganizerNorAttendee ∨ e = .otherSchedulingAgent) →
      itip_update organizerHandle attendeeHandle finalize dt old_ical
        (.ok sOld) (.error e) ical = (.error e, ical)) := by
  constructor
  · intro hspec
    constructor
    · intro hl
      rcases hspec with rfl | rfl | rfl | rfl <;>
        simp [itip_update, hl]
    · intro hl
      rcases hspec with rfl | rfl | rfl | rfl <;>
        simp [itip_update, hl]
  · intro hother
    cases e <;> first
      | rfl
      | exact absurd (by simp) hother

/-- Witness for C10 at a concrete input. -/
theorem itip_update_snapshot_error_witness :
    itip_update organizer_handle_update attendee_handle_update itip_finalize 0
      (ICalendar.mk []) (.ok sampleOrganizer) (.error .noSchedulingInfo)
      (ICalendar.mk []) =
      ((itip_cancel sampleOrganizer 0).map (fun m => [m]), ICalendar.mk []) :=
  ((itip_update_snapshot_error organizer_handle_update attendee_handle_update
      itip_finalize 0 (ICalendar.mk []) (ICalendar.mk []) sampleOrganizer
      .noSchedulingInfo).1 (Or.inl rfl)).1 (by decide)

/-- C9: every message returned by `itip_cancel` has a duplicate-free `to`
recipient list — the hash-set semantics of recipient collection. -/
theorem itip_cancel_to_nodup (itip : ItipSnapshots) (dt : Nat)
    (msg : ItipMessage ICalendar) (hok : itip_cancel itip dt = .ok msg) :
    msg.«to».Nodup := by
  by_cases hl : itip.organizer.email.is_local = true
  · rw [itip_cancel_eq_organizer itip dt hl] at hok
    obtain ⟨_, _, hmsg⟩ := itip_cancel_organizer_ok itip dt msg hok
    rw [hmsg]
    show (itip.components.foldl cancelStep ⟨[], [], .vEvent, 0⟩).recipients.Nodup
    rw [cancelFold_recipients]
    exact nodup_recipientOuterFold _ _ List.nodup_nil
  · have hl' : itip.organizer.email.is_local = false := by simpa using hl
    rw [itip_cancel_eq_attendee itip dt hl'] at hok
    obtain ⟨e, hs, hmsg⟩ := itip_cancel_attendee_ok itip dt msg hok
    rw [hmsg]
    exact nodup_insertUnique _ _ List.nodup_nil

/-- The organizer-branch message produced by `itip_cancel` on
`sampleOrganizer` with timestamp 5. -/
def sampleCancelMessage : ItipMessage ICalendar :=
  { «from» := "a@x"
    from_organizer := true
    «to» := ["b@y"]
    summary := .cancel "u1"
    message :=
      { components :=
          [{ component_type := .vCalendar
             entries := [⟨.method, .method .cancel⟩]
             component_ids := [1] },
           { component_type := .vEvent
             entries :=
               [⟨.status, .status .cancelled⟩, ⟨.dtstamp, .dateTime 5⟩,
                ⟨.sequence, .integer 4⟩, ⟨.uid, .text "u1"⟩,
                ⟨.organizer, .text "mailto:a@x"⟩,
                ⟨.attendee, .text "mailto:b@y"⟩]
             component_ids := [] }] } }

/-- Witness for C9 at a concrete input. -/
theorem itip_cancel_to_nodup_witness :
    itip_cancel sampleOrganizer 5 = .ok sampleCancelMessage ∧
      sampleCancelMessage.«to».Nodup :=
  ⟨by decide, itip_cancel_to_nodup sampleOrganizer 5 sampleCancelMessage (by decide)⟩

/-- C4: for every message returned by `itip_cancel`, `from_organizer` is
true exactly when the from address equals the snapshot organizer's email;
the organizer branch sends from the organizer address with
`from_organizer = true`, and the decline branch sends from a local
attendee address — distinct from the (remote) organizer address, since
`is_local` flags are resolved against one account-identity list — with
`from_organizer = false`. -/
theorem itip_cancel_from_organizer_iff (ae : List String)
    (itip : ItipSnapshots) (dt : Nat) (msg : ItipMessage ICalendar)
    (hw : localConsistent ae itip)
    (hok : itip_cancel itip dt = .ok msg) :
    (msg.from_organizer = true ↔ msg.«from» = itip.organizer.email.email) := by
  by_cases hl : itip.organizer.email.is_local = true
  · rw [itip_cancel_eq_organizer itip dt hl] at hok
    obtain ⟨_, _, hmsg⟩ := itip_cancel_organizer_ok itip dt msg hok
    rw [hmsg]
    exact ⟨fun _ => rfl, fun _ => rfl⟩
  · have hl' : itip.organizer.email.is_local = false := by simpa using hl
    rw [itip_cancel_eq_attendee itip dt hl'] at hok
    obtain ⟨e, hs, hmsg⟩ := itip_cancel_attendee_ok itip dt msg hok
    rcases declineFold_some itip dt itip.components ([], none) e hs with h0 | ⟨p, hp, c, hdec⟩
    · simp at h0
    · obtain ⟨a, ha, halocal, hea⟩ := attendee_decline_some p.1 itip p.2 dt c e hdec
      rw [hmsg]
      constructor
      · intro hfo
        exact absurd hfo (by simp)
      · intro hfrom
        have h1 : e.email ∈ ae := by
          rw [hea]
          exact (hw.2 p hp a ha).mp halocal
        have h2 : itip.organizer.email.email ∉ ae := by
          intro hin
          have := (hw.1).mpr hin
          rw [hl'] at this
          exact Bool.false_ne_true this
        exact absurd (hfrom ▸ h1) h2

/-- Witness for C4 at a concrete input. -/
theorem itip_cancel_from_organizer_iff_witness :
    localConsistent ["a@x"] sampleOrganizer ∧
      (sampleCancelMessage.from_organizer = true ↔
        sampleCancelMessage.«from» = sampleOrganizer.organizer.email.email) :=
  ⟨by decide,
   itip_cancel_from_organizer_iff ["a@x"] sampleOrganizer 5 sampleCancelMessage
     (by decide) (by decide)⟩

theorem getLastD_eq_of_all {α : Type} (l : List α) (d c : α) (hne : l ≠ [])
    (h : ∀ x ∈ l, x = c) : l.getLastD d = c := by
  induction l generalizing d with
  | nil => exact absurd rfl hne
  | cons a t ih =>
      rw [List.getLastD_cons]
      cases t with
      | nil => exact h a (by simp)
      | cons b t' =>
          exact ih a (by simp) (fun x hx => h x (by simp [hx]))

/-- C3 counterexample: the claim addresses the CANCEL "to the union of
attendees", but an attendee flagged RSVP:FALSE (`c@z` here, whose
send-update eligibility is false) is an attendee of the object and is
nevertheless absent from the `to` set of the emitted message. -/
theorem itip_cancel_union_attendees_counterexample :
    (∃ p ∈ sampleSuppressed.components, ∃ a ∈ p.2.attendees,
      a.email.email = "c@z") ∧
    (itip_cancel sampleSuppressed 7).toOption.map (fun m => m.«to») =
      some ["b@y"] ∧
    "c@z" ∉ ["b@y"] := by
  decide

/-- C3 (amended): with a local organizer and all instances of one
component type, `itip_cancel` returns the error `NothingToSend` exactly
when the type is VFREEBUSY or no update-eligible recipient exists;
otherwise it returns one message whose envelope carries METHOD:CANCEL
with a single child component, addressed to the union of the
update-eligible attendees' addresses. -/
theorem itip_cancel_organizer_nothing_to_send_iff (itip : ItipSnapshots)
    (ct : ICalendarComponentType) (dt : Nat)
    (hloc : itip.organizer.email.is_local = true)
    (hct : ∀ p ∈ itip.components, p.2.component_type = ct) :
    (itip_cancel itip dt = .error .nothingToSend ↔
      (ct = .vFreebusy ∨ eligibleRecipients itip = [])) ∧
    ∀ msg, itip_cancel itip dt = .ok msg →
      msg.«to» = eligibleRecipients itip ∧
      msg.message.components.head? = some
        { component_type := .vCalendar
          entries := [⟨.method, .method .cancel⟩]
          component_ids := [1] } ∧
      msg.message.components.length = 2 := by
  have hrec : (itip.components.foldl cancelStep ⟨[], [], .vEvent, 0⟩).recipients =
      eligibleRecipients itip := by
    rw [cancelFold_recipients]
    rfl
  constructor
  · rw [itip_cancel_eq_organizer itip dt hloc, itip_cancel_organizer_error_iff, hrec]
    by_cases hcomp : itip.components = []
    · have he : eligibleRecipients itip = [] := by
        rw [eligibleRecipients, hcomp]
        rfl
      simp [he]
    · have hctf : (itip.components.foldl cancelStep ⟨[], [], .vEvent, 0⟩).component_type = ct := by
        rw [cancelFold_component_type]
        apply getLastD_eq_of_all
        · simpa using hcomp
        · intro x hx
          rcases List.mem_map.mp hx with ⟨q, hq, rfl⟩
          exact hct q hq
      rw [hctf]
      constructor
      · rintro (h | h)
        · exact Or.inr h
        · exact Or.inl h
      · rintro (h | h)
        · exact Or.inr h
        · exact Or.inl h
  · intro msg hok
    rw [itip_cancel_eq_organizer itip dt hloc] at hok
    obtain ⟨_, _, hmsg⟩ := itip_cancel_organizer_ok itip dt msg hok
    rw [hmsg]
    exact ⟨hrec, rfl, rfl⟩

/-- Witness for the amended C3 at a concrete input. -/
theorem itip_cancel_organizer_nothing_to_send_iff_witness :
    ((itip_cancel sampleOrganizer 5 = .error .nothingToSend ↔
      (ICalendarComponentType.vEvent = .vFreebusy ∨
        eligibleRecipients sampleOrganizer = [])) ∧
    ∀ msg, itip_cancel sampleOrganizer 5 = .ok msg →
      msg.«to» = eligibleRecipients sampleOrganizer ∧
      msg.message.components.head? = some
        { component_type := .vCalendar
          entries := [⟨.method, .method .cancel⟩]
          component_ids := [1] } ∧
      msg.message.components.length = 2) :=
  itip_cancel_organizer_nothing_to_send_iff sampleOrganizer .vEvent 5
    (by decide) (by decide)

/-- C5: with a local organizer and a Main instance with stored SEQUENCE
`s`, the CANCEL component emitted by `itip_cancel` carries SEQUENCE equal
to `s + 1`, strictly greater than every previously emitted sequence for
that instance (prior emissions are bounded by the stored sequence). -/
theorem itip_cancel_sequence_increment (itip : ItipSnapshots) (dt : Nat)
    (c : ItipComponent) (s : Int) (msg : ItipMessage ICalendar)
    (hloc : itip.organizer.email.is_local = true)
    (hnd : itip.keysNodup)
    (hmem : (InstanceId.main, c) ∈ itip.components)
    (hseq : c.sequence = some s)
    (hok : itip_cancel itip dt = .ok msg) :
    ∃ env cc, msg.message.components = [env, cc] ∧
      cc.entries.filter (fun e => decide (e.name = .sequence)) =
        [⟨.sequence, .integer (s + 1)⟩] ∧
      ∀ prior : Int, prior ≤ s → prior < s + 1 := by
  rw [itip_cancel_eq_organizer itip dt hloc] at hok
  obtain ⟨_, _, hmsg⟩ := itip_cancel_organizer_ok itip dt msg hok
  have hseqf : (itip.components.foldl cancelStep ⟨[], [], .vEvent, 0⟩).sequence = s + 1 := by
    rw [cancelFold_sequence itip.components _ c hnd hmem, hseq]
    rfl
  refine ⟨_, _, by rw [hmsg], ?_, ?_⟩
  · rw [build_cancel_component_entries, hseqf, List.filter_append]
    simp
  · intro prior hp
    omega

/-- Witness for C5 at a concrete input. -/
theorem itip_cancel_sequence_increment_witness :
    ∃ env cc, sampleCancelMessage.message.components = [env, cc] ∧
      cc.entries.filter (fun e => decide (e.name = .sequence)) =
        [⟨.sequence, .integer (3 + 1)⟩] ∧
      ∀ prior : Int, prior ≤ 3 → prior < 3 + 1 :=
  itip_cancel_sequence_increment sampleOrganizer 5
    { component_type := .vEvent
      attendees := [⟨⟨"b@y", false⟩, true, false, .needsAction⟩]
      sequence := some 3
      fingerprint := 10 } 3 sampleCancelMessage
    (by decide) (by decide) (by decide) (by decide) (by decide)

/-- C6: the synthetic cancel component emitted by the organizer workflow
carries STATUS:CANCELLED, a DTSTAMP, the object's UID, the organizer's
address as ORGANIZER, and exactly one ATTENDEE line per cancelled guest
(the deduplicated union of the object's attendees). -/
theorem itip_cancel_component_contents (itip : ItipSnapshots) (dt : Nat)
    (msg : ItipMessage ICalendar)
    (hloc : itip.organizer.email.is_local = true)
    (hok : itip_cancel itip dt = .ok msg) :
    ∃ env cc, msg.message.components = [env, cc] ∧
      (⟨.status, .status .cancelled⟩ : ICalendarEntry) ∈ cc.entries ∧
      (⟨.dtstamp, .dateTime dt⟩ : ICalendarEntry) ∈ cc.entries ∧
      (⟨.uid, .text itip.uid⟩ : ICalendarEntry) ∈ cc.entries ∧
      (⟨.organizer, .text itip.organizer.email.display⟩ : ICalendarEntry) ∈ cc.entries ∧
      cc.entries.filter (fun e => decide (e.name = .attendee)) =
        (unionGuests itip).map (fun g => ⟨.attendee, .text g.display⟩) ∧
      (unionGuests itip).Nodup := by
  rw [itip_cancel_eq_organizer itip dt hloc] at hok
  obtain ⟨_, _, hmsg⟩ := itip_cancel_organizer_ok itip dt msg hok
  have hg : (itip.components.foldl cancelStep ⟨[], [], .vEvent, 0⟩).cancel_guests =
      unionGuests itip := by
    rw [cancelFold_guests]
    rfl
  refine ⟨_, _, by rw [hmsg], ?_, ?_, ?_, ?_, ?_, nodup_unionGuests itip⟩
  · rw [build_cancel_component_entries]
    simp
  · rw [build_cancel_component_entries]
    simp
  · rw [build_cancel_component_entries]
    simp
  · rw [build_cancel_component_entries]
    simp
  · rw [build_cancel_component_entries, hg, List.filter_append]
    simp

/-- Witness for C6 at a concrete input. -/
theorem itip_cancel_component_contents_witness :
    ∃ env cc, sampleCancelMessage.message.components = [env, cc] ∧
      (⟨.status, .status .cancelled⟩ : ICalendarEntry) ∈ cc.entries ∧
      (⟨.dtstamp, .dateTime 5⟩ : ICalendarEntry) ∈ cc.entries ∧
      (⟨.uid, .text sampleOrganizer.uid⟩ : ICalendarEntry) ∈ cc.entries ∧
      (⟨.organizer, .text sampleOrganizer.organizer.email.display⟩ : ICalendarEntry) ∈ cc.entries ∧
      cc.entries.filter (fun e => decide (e.name = .attendee)) =
        (unionGuests sampleOrganizer).map (fun g => ⟨.attendee, .text g.display⟩) ∧
      (unionGuests sampleOrganizer).Nodup :=
  itip_cancel_component_contents sampleOrganizer 5 sampleCancelMessage
    (by decide) (by decide)

/-- C8 counterexample: the claim includes send-update-ineligible attendees
in the `to` set of the CANCEL; on an object with attendee `c@z` flagged
RSVP:FALSE the CANCEL is emitted but `c@z` is not in `to` (it appears
only as an ATTENDEE line of the cancel body). -/
theorem itip_cancel_suppressed_recipient_counterexample :
    (∃ p ∈ sampleSuppressed.components, ∃ a ∈ p.2.attendees,
      a.send_update_messages = false ∧ a.email.email = "c@z") ∧
    (itip_cancel sampleSuppressed 7).toOption.map (fun m => m.«to») =
      some ["b@y"] ∧
    "c@z" ∉ ["b@y"] := by
  decide

/-- C8 (amended): in an organizer-initiated cancellation every attendee —
including those flagged SCHEDULE-AGENT:CLIENT or RSVP:FALSE — appears as
an ATTENDEE line of the emitted cancel component, but the `to` recipient
set contains exactly the addresses of the attendees whose send-update
eligibility is true; ineligible attendees are excluded from `to` even for
CANCELs. -/
theorem itip_cancel_suppression_amended (itip : ItipSnapshots) (dt : Nat)
    (msg : ItipMessage ICalendar)
    (hloc : itip.organizer.email.is_local = true)
    (hok : itip_cancel itip dt = .ok msg) :
    (∃ env cc, msg.message.components = [env, cc] ∧
      ∀ p ∈ itip.components, ∀ a ∈ p.2.attendees,
        (⟨.attendee, .text a.email.display⟩ : ICalendarEntry) ∈ cc.entries) ∧
    (∀ e, e ∈ msg.«to» ↔ ∃ p ∈ itip.components, ∃ a ∈ p.2.attendees,
      a.send_update_messages = true ∧ a.email.email = e) := by
  rw [itip_cancel_eq_organizer itip dt hloc] at hok
  obtain ⟨_, _, hmsg⟩ := itip_cancel_organizer_ok itip dt msg hok
  have hg : (itip.components.foldl cancelStep ⟨[], [], .vEvent, 0⟩).cancel_guests =
      unionGuests itip := by
    rw [cancelFold_guests]
    rfl
  have hrec : (itip.components.foldl cancelStep ⟨[], [], .vEvent, 0⟩).recipients =
      eligibleRecipients itip := by
    rw [cancelFold_recipients]
    rfl
  constructor
  · refine ⟨_, _, by rw [hmsg], ?_⟩
    intro p hp a ha
    rw [build_cancel_component_entries, hg]
    apply List.mem_append_right
    exact List.mem_map_of_mem _ ((mem_unionGuests itip a.email).mpr ⟨p, hp, a, ha, rfl⟩)
  · intro e
    rw [hmsg]
    show e ∈ (itip.components.foldl cancelStep ⟨[], [], .vEvent, 0⟩).recipients ↔ _
    rw [hrec, mem_eligibleRecipients]

/-- The organizer-branch message produced by `itip_cancel` on
`sampleSuppressed` with timestamp 7. -/
def sampleSuppressedMessage : ItipMessage ICalendar :=
  { «from» := "a@x"
    from_organizer := true
    «to» := ["b@y"]
    summary := .cancel "u4"
    message :=
      { components :=
          [{ component_type := .vCalendar
             entries := [⟨.method, .method .cancel⟩]
             component_ids := [1] },
           { component_type := .vEvent
             entries :=
               [⟨.status, .status .cancelled⟩, ⟨.dtstamp, .dateTime 7⟩,
                ⟨.sequence, .integer 1⟩, ⟨.uid, .text "u4"⟩,
                ⟨.organizer, .text "mailto:a@x"⟩,
                ⟨.attendee, .text "mailto:b@y"⟩,
                ⟨.attendee, .text "mailto:c@z"⟩]
             component_ids := [] }] } }

/-- Witness for the amended C8 at a concrete input. -/
theorem itip_cancel_suppression_amended_witness :
    (∃ env cc, sampleSuppressedMessage.message.components = [env, cc] ∧
      ∀ p ∈ sampleSuppressed.components, ∀ a ∈ p.2.attendees,
        (⟨.attendee, .text a.email.display⟩ : ICalendarEntry) ∈ cc.entries) ∧
    (∀ e, e ∈ sampleSuppressedMessage.«to» ↔
      ∃ p ∈ sampleSuppressed.components, ∃ a ∈ p.2.attendees,
        a.send_update_messages = true ∧ a.email.email = e) :=
  itip_cancel_suppression_amended sampleSuppressed 7 sampleSuppressedMessage
    (by decide) (by decide)

theorem itip_cancel_attendee_error_shape (itip : ItipSnapshots) (dt : Nat)
    (err : ItipError) (h : itip_cancel_attendee itip dt = .error err) :
    err = .nothingToSend ∧
      (itip.components.foldl (declineStep itip dt) ([], none)).2 = none := by
  simp only [itip_cancel_attendee] at h
  rcases hs : (itip.components.foldl (declineStep itip dt) ([], none)).2 with _ | e
  · rw [hs] at h
    exact ⟨(Except.error.inj h).symm, rfl⟩
  · rw [hs] at h
    exact absurd h (by simp)

/-- C7: with a remote organizer, `itip_cancel` (object deletion by the
attendee) emits a single REPLY whose summary reports PARTSTAT=DECLINED,
whose recipients include the organizer's address, and whose from address
is a local attendee address; with no local attendee anywhere the result
is the error `NothingToSend`. -/
theorem itip_cancel_attendee_decline_claim (itip : ItipSnapshots) (dt : Nat)
    (hrem : itip.organizer.email.is_local = false) :
    ((∃ p ∈ itip.components, ∃ a ∈ p.2.attendees, a.email.is_local = true) →
      ∃ msg, itip_cancel itip dt = .ok msg ∧
        msg.summary = .rsvp .declined itip.build_summary ∧
        itip.organizer.email.email ∈ msg.«to» ∧
        msg.from_organizer = false ∧
        (∃ env, msg.message.components.head? = some env ∧
          (⟨.method, .method .reply⟩ : ICalendarEntry) ∈ env.entries) ∧
        ∃ p ∈ itip.components, ∃ a ∈ p.2.attendees,
          a.email.is_local = true ∧ msg.«from» = a.email.email) ∧
    ((∀ p ∈ itip.components, ∀ a ∈ p.2.attendees, a.email.is_local = false) →
      itip_cancel itip dt = .error .nothingToSend) := by
  constructor
  · intro hex
    have hsome := declineFold_isSome itip dt itip.components ([], none) (Or.inr hex)
    rcases hr : itip_cancel_attendee itip dt with err | msg
    · obtain ⟨_, hn⟩ := itip_cancel_attendee_error_shape itip dt err hr
      rw [hn] at hsome
      simp at hsome
    · obtain ⟨e, hs, hmsg⟩ := itip_cancel_attendee_ok itip dt msg hr
      rcases declineFold_some itip dt itip.components ([], none) e hs with h0 | ⟨p, hp, c, hdec⟩
      · simp at h0
      · obtain ⟨a, ha, halocal, hea⟩ := attendee_decline_some p.1 itip p.2 dt c e hdec
        refine ⟨msg, by rw [itip_cancel_eq_attendee itip dt hrem, hr], ?_, ?_, ?_, ?_, ?_⟩
        · rw [hmsg]
        · rw [hmsg]
          exact (mem_insertUnique [] _ _).mpr (Or.inr rfl)
        · rw [hmsg]
        · rw [hmsg]
          exact ⟨_, rfl, by simp [itip_build_envelope]⟩
        · exact ⟨p, hp, a, ha, halocal, by rw [hmsg, hea]⟩
  · intro hnone
    rw [itip_cancel_eq_attendee itip dt hrem, itip_cancel_attendee_error_iff,
      declineFold_none itip dt itip.components hnone]

/-- Witness for C7 at a concrete input. -/
theorem itip_cancel_attendee_decline_claim_witness :
    ∃ msg, itip_cancel sampleAttendee 5 = .ok msg ∧
      msg.summary = .rsvp .declined sampleAttendee.build_summary ∧
      sampleAttendee.organizer.email.email ∈ msg.«to» ∧
      msg.from_organizer = false ∧
      (∃ env, msg.message.components.head? = some env ∧
        (⟨.method, .method .reply⟩ : ICalendarEntry) ∈ env.entries) ∧
      ∃ p ∈ sampleAttendee.components, ∃ a ∈ p.2.attendees,
        a.email.is_local = true ∧ msg.«from» = a.email.email :=
  (itip_cancel_attendee_decline_claim sampleAttendee 5 (by decide)).1 (by decide)
